import Mathlib

/-!
Verification of the split-view layout and focus coordination subsystem of
the inye-tunnel web client, embedded shallowly from the TypeScript source
(SplitPaneContainer, SplitGroupCard, CompactSessionCard).

JavaScript numbers are modelled as extended rationals: finite values are
exact rationals (IEEE rounding is idealised away), plus the two infinities
and NaN that JS arithmetic produces on division by zero.
-/

namespace InyeTunnel

/-- A JavaScript number: a finite rational, a signed infinity, or NaN. -/
inductive JsNum where
  | fin (q : ℚ)
  | inf (pos : Bool)
  | nan
  deriving DecidableEq, Repr

/-- JS addition on extended numbers: NaN is absorbing, opposite infinities
give NaN, an infinity dominates a finite value. -/
def JsNum.add : JsNum → JsNum → JsNum
  | .nan, _ => .nan
  | _, .nan => .nan
  | .inf s, .inf t => if s = t then .inf s else .nan
  | .inf s, .fin _ => .inf s
  | .fin _, .inf t => .inf t
  | .fin a, .fin b => .fin (a + b)

/-- JS negation. -/
def JsNum.neg : JsNum → JsNum
  | .nan => .nan
  | .inf s => .inf (!s)
  | .fin a => .fin (-a)

/-- JS subtraction. -/
def JsNum.sub (a b : JsNum) : JsNum := a.add b.neg

/-- JS division of two finite numbers: division by zero yields a signed
infinity, and 0/0 yields NaN. -/
def qdiv (a b : ℚ) : JsNum :=
  if b = 0 then (if a = 0 then .nan else .inf (decide (0 < a))) else .fin (a / b)

/-- JS Math.max on two numbers: NaN if either argument is NaN. -/
def JsNum.jmax : JsNum → JsNum → JsNum
  | .nan, _ => .nan
  | _, .nan => .nan
  | .inf true, _ => .inf true
  | _, .inf true => .inf true
  | .inf false, b => b
  | a, .inf false => a
  | .fin a, .fin b => .fin (max a b)

/-- JS Math.min on two numbers: NaN if either argument is NaN. -/
def JsNum.jmin : JsNum → JsNum → JsNum
  | .nan, _ => .nan
  | _, .nan => .nan
  | .inf false, _ => .inf false
  | _, .inf false => .inf false
  | .inf true, b => b
  | a, .inf true => a
  | .fin a, .fin b => .fin (min a b)

/-- Rational clamp written exactly as the source computes it:
Math.max(lo, Math.min(hi, q)). -/
def clampQ (lo hi q : ℚ) : ℚ := max lo (min hi q)

/-- The mutable fields of SplitPaneContainer (src/unnamed/part_000) that
the drag state machine and listener lifecycle touch. The three listener
booleans model whether the corresponding DOM listener is currently
registered: a document-level handler runs only while its flag is set. -/
structure SplitState where
  splitRatio : JsNum
  activePaneIndex : Nat
  isDragging : Bool
  dragStartX : ℚ
  dragStartRatio : JsNum
  containerWidth : ℚ
  moveListener : Bool
  upListener : Bool
  paneDownListener : Bool
  deriving DecidableEq, Repr

/-- Side effects the component dispatches or schedules. -/
inductive Eff where
  | splitResize (ratio : JsNum)
  | refit
  | paneFocus (index : Nat)
  deriving DecidableEq, Repr

/-- handleDividerMouseDown: enter the Dragging state, capture the start
position and ratio, sample the container width (clientWidth minus the
divider width) when the container element is found, and register the two
global document listeners. -/
def handleDividerMouseDown (dividerWidth : ℚ) (s : SplitState) (clientX : ℚ)
    (clientWidth : Option ℚ) : SplitState :=
  { s with
    isDragging := true
    dragStartX := clientX
    dragStartRatio := s.splitRatio
    containerWidth :=
      match clientWidth with
      | some cw => cw - dividerWidth
      | none => s.containerWidth
    moveListener := true
    upListener := true }

/-- handleMouseMove: while dragging, set
splitRatio := Math.max(minRatio, Math.min(maxRatio, dragStartRatio + deltaX/containerWidth))
with minRatio = MIN_WIDTH/containerWidth and maxRatio = 1 - minRatio.
The division is performed unconditionally, as in the source. -/
def handleMouseMove (minWidth : ℚ) (s : SplitState) (clientX : ℚ) : SplitState :=
  if s.isDragging then
    let deltaRatio := qdiv (clientX - s.dragStartX) s.containerWidth
    let newRatio := s.dragStartRatio.add deltaRatio
    let minRatio := qdiv minWidth s.containerWidth
    let maxRatio := (JsNum.fin 1).sub minRatio
    { s with splitRatio := minRatio.jmax (maxRatio.jmin newRatio) }
  else s

/-- handleMouseUp: leave the Dragging state, remove the global listeners,
dispatch split-resize with the final ratio, then refit the terminals. -/
def handleMouseUp (s : SplitState) : SplitState × List Eff :=
  if s.isDragging then
    ({ s with isDragging := false, moveListener := false, upListener := false },
      [.splitResize s.splitRatio, .refit])
  else (s, [])

/-- updated lifecycle hook: refit the terminals only when splitRatio
changed and no drag is in progress. -/
def updated (ratioChanged : Bool) (s : SplitState) : List Eff :=
  if ratioChanged && !s.isDragging then [.refit] else []

/-- disconnectedCallback: unconditionally remove the two global document
listeners and the capture-phase mousedown listener. It does not reset
isDragging and dispatches nothing. -/
def disconnectedCallback (s : SplitState) : SplitState :=
  { s with moveListener := false, upListener := false, paneDownListener := false }

/-- What the capture-phase mousedown hit-test sees: whether the divider
element exists and contains the event target, and, for each pane position
in order, whether that pane entry is present, its element is found, and
the element contains the target. -/
structure ClickTarget where
  inDivider : Bool
  inPane : List Bool
  deriving DecidableEq, Repr

/-- The pane loop of handlePaneMouseDown: scan the panes in order; at the
first pane containing the target, dispatch pane-focus when its index
differs from the active index, and stop either way. -/
def paneLoop (active : Nat) : List Bool → Nat → List Eff
  | [], _ => []
  | c :: rest, i =>
    if c then (if active = i then [] else [.paneFocus i])
    else paneLoop active rest (i + 1)

/-- handlePaneMouseDown: ignore clicks inside the divider, otherwise run
the pane scan from index 0. -/
def handlePaneMouseDown (active : Nat) (t : ClickTarget) : List Eff :=
  if t.inDivider then [] else paneLoop active t.inPane 0

/-- Index of the first true entry, if any (specification-side helper). -/
def firstTrue : List Bool → Option Nat
  | [] => none
  | b :: rest => if b then some 0 else (firstTrue rest).map (· + 1)

/-- Events the environment can deliver to the component. -/
inductive Ev where
  | dividerDown (clientX : ℚ) (clientWidth : Option ℚ)
  | docMove (clientX : ℚ)
  | docUp
  | disconnect
  deriving DecidableEq, Repr

/-- One step of the component under an environment event. Document-level
events reach their handler only while the corresponding listener is
registered; a ratio change from a move additionally runs the updated
lifecycle hook. -/
def step (minWidth dividerWidth : ℚ) (s : SplitState) : Ev → SplitState × List Eff
  | .dividerDown x cw => (handleDividerMouseDown dividerWidth s x cw, [])
  | .docMove x =>
      if s.moveListener then
        let s' := handleMouseMove minWidth s x
        (s', updated (decide (s'.splitRatio ≠ s.splitRatio)) s')
      else (s, [])
  | .docUp => if s.upListener then handleMouseUp s else (s, [])
  | .disconnect => (disconnectedCallback s, [])

/-- The drag-and-drop transfer key used by the split gesture in
CompactSessionCard. -/
def vtSessionKey : String := "application/vt-session-id"

/-- DataTransfer.getData: the empty string when there is no dataTransfer
object or the key carries no entry. -/
def getData (dt : Option (List (String × String))) (key : String) : String :=
  match dt with
  | none => ""
  | some entries => (entries.lookup key).getD ""

/-- Notifications raised by CompactSessionCard
(src/web/src/client/components/session-list/compact-session-card.ts). -/
inductive CardEv where
  | splitWithSession (draggedSessionId targetSessionId : String)
  | sessionDelete (sessionId : String)
  | sessionCleanup (sessionId : String)
  | sessionKillError (sessionId error : String)
  deriving DecidableEq, Repr

/-- handleDrop of CompactSessionCard: read the dragged session id from the
split-specific transfer key; return silently when it is falsy (missing
payload or empty string) or equal to the card's own session id, otherwise
dispatch split-with-session with both ids. -/
def handleDrop (sessionId : String) (dt : Option (List (String × String))) :
    List CardEv :=
  let draggedSessionId := getData dt vtSessionKey
  if draggedSessionId = "" then []
  else if draggedSessionId = sessionId then []
  else [.splitWithSession draggedSessionId sessionId]

/-- Outcome reported by the external sessionActionService.deleteSession
through its callbacks. -/
inductive DeleteResult where
  | success
  | failure (error : String)
  deriving DecidableEq, Repr

/-- handleDelete of CompactSessionCard: on success dispatch
session-cleanup when the session status is exited and session-delete
otherwise; on failure dispatch session-kill-error with the error. -/
def handleDelete (sessionId status : String) : DeleteResult → List CardEv
  | .success =>
      [if status = "exited" then .sessionCleanup sessionId
       else .sessionDelete sessionId]
  | .failure err => [.sessionKillError sessionId err]

/-- A session as SplitGroupCard reads it: id and lifecycle status. -/
structure GSession where
  id : String
  status : String
  deriving DecidableEq, Repr

/-- The two rendering modes of SplitGroupCard. -/
inductive GMode where
  | active
  | persisted
  deriving DecidableEq, Repr

/-- The reactive properties of SplitGroupCard (src/unnamed/part_001). -/
structure SplitGroupCard where
  leftSession : GSession
  rightSession : GSession
  mode : GMode
  groupId : String
  deriving DecidableEq, Repr

/-- Notifications raised by SplitGroupCard. -/
inductive GEv where
  | unsplit (sessionId : String)
  | splitSessionFocus (sessionId : String)
  | restoreSplitGroup (groupId : String)
  deriving DecidableEq, Repr

/-- handleClickLeft: focus request carrying the left session id. -/
def handleClickLeft (c : SplitGroupCard) : List GEv :=
  [.splitSessionFocus c.leftSession.id]

/-- handleClickRight: focus request carrying the right session id. -/
def handleClickRight (c : SplitGroupCard) : List GEv :=
  [.splitSessionFocus c.rightSession.id]

/-- handleUnsplit: unsplit request carrying the left session id. -/
def handleUnsplit (c : SplitGroupCard) : List GEv :=
  [.unsplit c.leftSession.id]

/-- handleRestoreClick: dispatch restore-split-group with the groupId
unless the mode is not persisted or the groupId is falsy. -/
def handleRestoreClick (c : SplitGroupCard) : List GEv :=
  if c.mode ≠ .persisted ∨ c.groupId = "" then []
  else [.restoreSplitGroup c.groupId]

/-- Which rendered control a click lands on. -/
inductive GTarget where
  | card
  | leftName
  | rightName
  | unsplitButton
  deriving DecidableEq, Repr

/-- Click dispatch as wired by render: the persisted template attaches
handleRestoreClick to the whole card, and none of its children carries a
click handler, so every click inside the card reaches it; the active
template attaches the two name handlers and the unsplit handler to their
buttons and no handler to the card itself. -/
def clickDispatch (c : SplitGroupCard) (t : GTarget) : List GEv :=
  match c.mode with
  | .persisted => handleRestoreClick c
  | .active =>
    match t with
    | .leftName => handleClickLeft c
    | .rightName => handleClickRight c
    | .unsplitButton => handleUnsplit c
    | .card => []

/-- getGroupStatusColor: status dot class derived from the two sessions'
running state. -/
def getGroupStatusColor (c : SplitGroupCard) : String :=
  let leftRunning := c.leftSession.status = "running"
  let rightRunning := c.rightSession.status = "running"
  if leftRunning ∧ rightRunning then "bg-status-success"
  else if leftRunning ∨ rightRunning then "bg-status-warning"
  else "bg-status-error"

end InyeTunnel

namespace InyeTunnel

/-- C1: while Dragging with a positive captured container width, a
pointer-move at clientX sets the ratio to
clamp(startRatio + (clientX - startX)/width, minW/width, 1 - minW/width);
replaying the move leaves the ratio unchanged (no accumulation); and in
particular startRatio = 1/2, width = 1000, deltaX = 150 yields 13/20 = 0.65
whenever the minimum pane width is at most 350 px. -/
theorem c1_drag_move_clamped_pure (minW w x0 r0 cx : ℚ) (s : SplitState)
    (hdrag : s.isDragging = true) (hw : s.containerWidth = w) (hwpos : 0 < w)
    (hx : s.dragStartX = x0) (hr : s.dragStartRatio = JsNum.fin r0) :
    (handleMouseMove minW s cx).splitRatio
        = JsNum.fin (clampQ (minW / w) (1 - minW / w) (r0 + (cx - x0) / w))
    ∧ (handleMouseMove minW (handleMouseMove minW s cx) cx).splitRatio
        = (handleMouseMove minW s cx).splitRatio
    ∧ (w = 1000 → r0 = 1/2 → cx - x0 = 150 → 0 ≤ minW → minW ≤ 350 →
        (handleMouseMove minW s cx).splitRatio = JsNum.fin (13/20)) := by
  have hw0 : w ≠ 0 := ne_of_gt hwpos
  have hmain : (handleMouseMove minW s cx).splitRatio
      = JsNum.fin (clampQ (minW / w) (1 - minW / w) (r0 + (cx - x0) / w)) := by
    simp only [handleMouseMove, hdrag, if_true, qdiv, hw, hx, hr, hw0, if_false,
      JsNum.sub, JsNum.neg, JsNum.add, JsNum.jmin, JsNum.jmax, clampQ]
    norm_num [sub_eq_add_neg]
  refine ⟨hmain, ?_, ?_⟩
  · have hdrag2 : (handleMouseMove minW s cx).isDragging = true := by
      simp [handleMouseMove, hdrag]
    simp only [handleMouseMove, hdrag, hdrag2, if_true]
  · intro hw1000 hr12 hdx h0 h350
    rw [hmain, hw1000, hr12, hdx]
    have hmin : min (1 - minW / 1000) ((1 : ℚ)/2 + 150 / 1000) = 13/20 := by
      rw [min_eq_right]
      · norm_num
      · linarith
    have hmax : max (minW / 1000) (13/20 : ℚ) = 13/20 := by
      rw [max_eq_right]
      linarith
    rw [clampQ, hmin, hmax]

/-- Witness for C1 at a concrete drag state. -/
theorem c1_drag_move_clamped_pure_witness :
    (handleMouseMove 200
        ⟨JsNum.fin (1/2), 0, true, 0, JsNum.fin (1/2), 1000, true, true, true⟩
        150).splitRatio = JsNum.fin (13/20) := by
  have h := c1_drag_move_clamped_pure 200 1000 0 (1/2) 150
    ⟨JsNum.fin (1/2), 0, true, 0, JsNum.fin (1/2), 1000, true, true, true⟩
    rfl rfl (by norm_num) rfl rfl
  exact h.2.2 rfl rfl (by norm_num) (by norm_num) (by norm_num)

/-- C2 counterexample: with containerWidth = 0 captured at drag start, a
pointer-move is not skipped: the ratio becomes +Infinity, a non-finite
value different from the stored ratio 1/2. -/
theorem c2_zero_width_counterexample :
    (handleMouseMove 200
        ⟨JsNum.fin (1/2), 0, true, 0, JsNum.fin (1/2), 0, true, true, true⟩
        150).splitRatio = JsNum.inf true
    ∧ (⟨JsNum.fin (1/2), 0, true, 0, JsNum.fin (1/2), 0, true, true, true⟩
        : SplitState).splitRatio = JsNum.fin (1/2) := by
  constructor
  · simp [handleMouseMove, qdiv, JsNum.sub, JsNum.neg, JsNum.add,
      JsNum.jmin, JsNum.jmax]
  · rfl

/-- C2 amended: with containerWidth = 0 at drag start the ratio math is
not skipped; any pointer-move away from the start position sets the stored
ratio to +Infinity (the state machine still transitions to Dragging on
divider pointer-down). -/
theorem c2_zero_width_gives_infinite_ratio (minW cx dW x : ℚ) (s : SplitState)
    (cw : Option ℚ) (r0 : ℚ)
    (hdrag : s.isDragging = true) (hw : s.containerWidth = 0)
    (hminW : 0 < minW) (hr : s.dragStartRatio = JsNum.fin r0)
    (hcx : cx ≠ s.dragStartX) :
    (handleMouseMove minW s cx).splitRatio = JsNum.inf true
    ∧ (handleDividerMouseDown dW s x cw).isDragging = true := by
  constructor
  · have hdx : cx - s.dragStartX ≠ 0 := sub_ne_zero.mpr hcx
    have hminW0 : minW ≠ 0 := ne_of_gt hminW
    have h1 : qdiv minW 0 = JsNum.inf true := by simp [qdiv, hminW0, hminW]
    have h2 : qdiv (cx - s.dragStartX) 0
        = JsNum.inf (decide (0 < cx - s.dragStartX)) := by
      simp [qdiv, hdx]
    simp only [handleMouseMove, hdrag, if_true, hw, h1, h2, hr]
    cases hlt : decide (0 < cx - s.dragStartX) <;>
      simp [JsNum.sub, JsNum.neg, JsNum.add, JsNum.jmin, JsNum.jmax]
  · rfl

/-- Witness for the amended C2 at a concrete drag state. -/
theorem c2_zero_width_gives_infinite_ratio_witness :
    (handleMouseMove 200
        ⟨JsNum.fin (1/2), 0, true, 0, JsNum.fin (1/2), 0, true, true, true⟩
        150).splitRatio = JsNum.inf true
    ∧ (handleDividerMouseDown 4
        ⟨JsNum.fin (1/2), 0, true, 0, JsNum.fin (1/2), 0, true, true, true⟩
        7 (some 0)).isDragging = true :=
  c2_zero_width_gives_infinite_ratio 200 150 4 7
    ⟨JsNum.fin (1/2), 0, true, 0, JsNum.fin (1/2), 0, true, true, true⟩
    (some 0) (1/2) rfl rfl (by norm_num) rfl (by norm_num)

/-- The pane scan started at offset i dispatches for the first containing
pane, with indices shifted by the offset. -/
theorem paneLoop_eq_firstTrue (active : Nat) (l : List Bool) :
    ∀ i, paneLoop active l i =
      match firstTrue l with
      | some j => if active = i + j then [] else [Eff.paneFocus (i + j)]
      | none => [] := by
  induction l with
  | nil => intro i; rfl
  | cons b rest ih =>
    intro i
    cases b with
    | true => simp [paneLoop, firstTrue]
    | false =>
      have h1 : paneLoop active (false :: rest) i = paneLoop active rest (i + 1) := rfl
      rw [h1, ih (i + 1)]
      cases h : firstTrue rest with
      | none => simp [firstTrue, h]
      | some j =>
        have h2 : i + 1 + j = i + (j + 1) := by omega
        simp [firstTrue, h, h2]

/-- C3: a capture-phase mousedown inside the divider raises nothing; when
no pane contains the target nothing is raised; when the first containing
pane has index i, exactly one pane-focus with index i is raised if i
differs from the active index, and nothing if it equals it. -/
theorem c3_capture_focus_routing (active : Nat) (t : ClickTarget) :
    (t.inDivider = true → handlePaneMouseDown active t = [])
    ∧ (t.inDivider = false → firstTrue t.inPane = none →
        handlePaneMouseDown active t = [])
    ∧ (∀ i, t.inDivider = false → firstTrue t.inPane = some i → i ≠ active →
        handlePaneMouseDown active t = [Eff.paneFocus i])
    ∧ (t.inDivider = false → firstTrue t.inPane = some active →
        handlePaneMouseDown active t = []) := by
  refine ⟨?_, ?_, ?_, ?_⟩
  · intro hdiv
    simp [handlePaneMouseDown, hdiv]
  · intro hdiv hnone
    rw [handlePaneMouseDown, hdiv]
    simp only [Bool.false_eq_true, if_false]
    rw [paneLoop_eq_firstTrue active t.inPane 0, hnone]
  · intro i hdiv hsome hne
    rw [handlePaneMouseDown, hdiv]
    simp only [Bool.false_eq_true, if_false]
    rw [paneLoop_eq_firstTrue active t.inPane 0, hsome]
    simp [Ne.symm hne]
  · intro hdiv hsome
    rw [handlePaneMouseDown, hdiv]
    simp only [Bool.false_eq_true, if_false]
    rw [paneLoop_eq_firstTrue active t.inPane 0, hsome]
    simp

/-- Witness for C3: clicking inside pane 1 while pane 0 is active raises
exactly one pane-focus with index 1. -/
theorem c3_capture_focus_routing_witness :
    handlePaneMouseDown 0 ⟨false, [false, true]⟩ = [Eff.paneFocus 1] :=
  (c3_capture_focus_routing 0 ⟨false, [false, true]⟩).2.2.1 1 rfl rfl (by decide)

/-- handleMouseMove leaves isDragging unchanged. -/
theorem handleMouseMove_isDragging (minW : ℚ) (s : SplitState) (x : ℚ) :
    (handleMouseMove minW s x).isDragging = s.isDragging := by
  rw [handleMouseMove]; split <;> rfl

/-- handleMouseMove leaves the listener flags unchanged. -/
theorem handleMouseMove_listeners (minW : ℚ) (s : SplitState) (x : ℚ) :
    (handleMouseMove minW s x).moveListener = s.moveListener
    ∧ (handleMouseMove minW s x).upListener = s.upListener := by
  rw [handleMouseMove]; constructor <;> split <;> rfl

/-- C4: disconnecting removes both global listeners and dispatches
nothing; afterwards synthetic pointer-moves and pointer-ups leave the
state unchanged and dispatch nothing (in particular no split-resize);
divider pointer-down registers the listeners exactly when entering
Dragging; pointer-up while Dragging deregisters both and leaves Dragging;
and every step preserves the invariant that a registered global listener
implies Dragging. -/
theorem c4_disconnect_listener_lifecycle (minW dW : ℚ) (s : SplitState) :
    (step minW dW s .disconnect).2 = []
    ∧ (step minW dW s .disconnect).1.moveListener = false
    ∧ (step minW dW s .disconnect).1.upListener = false
    ∧ (∀ x, step minW dW (step minW dW s .disconnect).1 (.docMove x)
          = ((step minW dW s .disconnect).1, []))
    ∧ step minW dW (step minW dW s .disconnect).1 .docUp
          = ((step minW dW s .disconnect).1, [])
    ∧ (∀ x cw, (step minW dW s (.dividerDown x cw)).1.moveListener = true
          ∧ (step minW dW s (.dividerDown x cw)).1.upListener = true
          ∧ (step minW dW s (.dividerDown x cw)).1.isDragging = true)
    ∧ (s.isDragging = true → s.upListener = true →
          (step minW dW s .docUp).1.moveListener = false
          ∧ (step minW dW s .docUp).1.upListener = false
          ∧ (step minW dW s .docUp).1.isDragging = false)
    ∧ (∀ e, (s.moveListener = true → s.isDragging = true) →
          (s.upListener = true → s.isDragging = true) →
          ((step minW dW s e).1.moveListener = true →
              (step minW dW s e).1.isDragging = true)
          ∧ ((step minW dW s e).1.upListener = true →
              (step minW dW s e).1.isDragging = true)) := by
  refine ⟨rfl, rfl, rfl, ?_, ?_, ?_, ?_, ?_⟩
  · intro x
    simp [step, disconnectedCallback]
  · simp [step, disconnectedCallback]
  · intro x cw
    refine ⟨rfl, rfl, rfl⟩
  · intro hdrag hup
    simp [step, hup, handleMouseUp, hdrag]
  · intro e hmv hup
    cases e with
    | dividerDown x cw => exact ⟨fun _ => rfl, fun _ => rfl⟩
    | docMove x =>
      cases hm : s.moveListener with
      | false =>
        have hstep : step minW dW s (.docMove x) = (s, []) := by simp [step, hm]
        rw [hstep]
        exact ⟨hmv, hup⟩
      | true =>
        have hd : s.isDragging = true := hmv hm
        simp [step, hm, handleMouseMove_isDragging, handleMouseMove_listeners, hd]
    | docUp =>
      cases hu : s.upListener with
      | false =>
        have hstep : step minW dW s .docUp = (s, []) := by simp [step, hu]
        rw [hstep]
        exact ⟨hmv, hup⟩
      | true =>
        have hd : s.isDragging = true := hup hu
        simp [step, hu, handleMouseUp, hd]
    | disconnect =>
      simp [step, disconnectedCallback]

/-- Witness for C4 at a concrete mid-drag state. -/
theorem c4_disconnect_listener_lifecycle_witness :
    (step 200 4 ⟨JsNum.fin (1/2), 0, true, 5, JsNum.fin (1/2), 1000, true, true, true⟩
        .docUp).1.moveListener = false
    ∧ ((step 200 4 ⟨JsNum.fin (1/2), 0, true, 5, JsNum.fin (1/2), 1000, true, true, true⟩
        (.docMove 42)).1.moveListener = true →
      (step 200 4 ⟨JsNum.fin (1/2), 0, true, 5, JsNum.fin (1/2), 1000, true, true, true⟩
        (.docMove 42)).1.isDragging = true) := by
  have h := c4_disconnect_listener_lifecycle 200 4
    ⟨JsNum.fin (1/2), 0, true, 5, JsNum.fin (1/2), 1000, true, true, true⟩
  exact ⟨(h.2.2.2.2.2.2.1 rfl rfl).1,
    (h.2.2.2.2.2.2.2 (.docMove 42) (fun _ => rfl) (fun _ => rfl)).1⟩

/-- C5: while Dragging, a pointer-move dispatches no effect at all (no
refit, no split-resize), and pointer-up dispatches exactly the
split-resize with the final ratio followed by the deferred refit, at the
transition to Idle. -/
theorem c5_deferred_resize_at_drag_end (minW dW x : ℚ) (s : SplitState)
    (hdrag : s.isDragging = true) :
    (step minW dW s (.docMove x)).2 = []
    ∧ (s.upListener = true →
        (step minW dW s .docUp).2 = [Eff.splitResize s.splitRatio, Eff.refit]
        ∧ (step minW dW s .docUp).1.isDragging = false) := by
  constructor
  · cases hm : s.moveListener with
    | false => simp [step, hm]
    | true =>
      simp only [step, hm, if_true]
      simp [updated, handleMouseMove_isDragging, hdrag]
  · intro hup
    constructor <;> simp [step, hup, handleMouseUp, hdrag]

/-- Witness for C5 at a concrete mid-drag state. -/
theorem c5_deferred_resize_at_drag_end_witness :
    (step 200 4 ⟨JsNum.fin (1/2), 0, true, 5, JsNum.fin (1/2), 1000, true, true, true⟩
        (.docMove 42)).2 = []
    ∧ (step 200 4 ⟨JsNum.fin (1/2), 0, true, 5, JsNum.fin (1/2), 1000, true, true, true⟩
        .docUp).2 = [Eff.splitResize (JsNum.fin (1/2)), Eff.refit] := by
  have h := c5_deferred_resize_at_drag_end 200 4 42
    ⟨JsNum.fin (1/2), 0, true, 5, JsNum.fin (1/2), 1000, true, true, true⟩ rfl
  exact ⟨h.1, (h.2 rfl).1⟩

/-- C6: a drop with a dragged id under the split key that is non-empty
and different from the card's own id dispatches exactly one
split-with-session carrying both ids; a missing or wrong-key payload
(getData yields the empty string) or a drop on self dispatches nothing. -/
theorem c6_drop_split_request (sid : String)
    (dt : Option (List (String × String))) :
    (∀ dragged, getData dt vtSessionKey = dragged → dragged ≠ "" →
        dragged ≠ sid →
        handleDrop sid dt = [CardEv.splitWithSession dragged sid])
    ∧ (getData dt vtSessionKey = "" → handleDrop sid dt = [])
    ∧ (getData dt vtSessionKey = sid → handleDrop sid dt = []) := by
  refine ⟨?_, ?_, ?_⟩
  · intro dragged hget hne hnesid
    simp [handleDrop, hget, hne, hnesid]
  · intro h
    simp [handleDrop, h]
  · intro h
    by_cases hs : sid = ""
    · simp [handleDrop, h, hs]
    · simp [handleDrop, h, hs]

/-- Witness for C6: dropping session A on B's card dispatches the split
request; dropping A on its own card dispatches nothing. -/
theorem c6_drop_split_request_witness :
    handleDrop "B" (some [(vtSessionKey, "A")])
        = [CardEv.splitWithSession "A" "B"]
    ∧ handleDrop "A" (some [(vtSessionKey, "A")]) = [] :=
  ⟨(c6_drop_split_request "B" (some [(vtSessionKey, "A")])).1 "A" rfl
      (by decide) (by decide),
   (c6_drop_split_request "A" (some [(vtSessionKey, "A")])).2.2 rfl⟩

/-- C9: a failed deletion dispatches exactly one session-kill-error with
the session id and error, and neither success event; a successful
deletion dispatches session-cleanup when the session status is exited and
session-delete otherwise. -/
theorem c9_delete_outcome_events (sid status err : String) :
    handleDelete sid status (.failure err) = [CardEv.sessionKillError sid err]
    ∧ CardEv.sessionDelete sid ∉ handleDelete sid status (.failure err)
    ∧ CardEv.sessionCleanup sid ∉ handleDelete sid status (.failure err)
    ∧ (status = "exited" →
        handleDelete sid status .success = [CardEv.sessionCleanup sid])
    ∧ (status ≠ "exited" →
        handleDelete sid status .success = [CardEv.sessionDelete sid]) := by
  refine ⟨rfl, ?_, ?_, ?_, ?_⟩
  · simp [handleDelete]
  · simp [handleDelete]
  · intro h
    simp [handleDelete, h]
  · intro h
    simp [handleDelete, h]

/-- Witness for C9 at concrete sessions and a concrete error. -/
theorem c9_delete_outcome_events_witness :
    handleDelete "s1" "running" (.failure "boom")
        = [CardEv.sessionKillError "s1" "boom"]
    ∧ handleDelete "s1" "exited" .success = [CardEv.sessionCleanup "s1"]
    ∧ handleDelete "s1" "running" .success = [CardEv.sessionDelete "s1"] :=
  ⟨(c9_delete_outcome_events "s1" "running" "boom").1,
   (c9_delete_outcome_events "s1" "exited" "boom").2.2.2.1 rfl,
   (c9_delete_outcome_events "s1" "running" "boom").2.2.2.2 (by decide)⟩

/-- C7: in persisted mode with a non-empty groupId, a card click raises
exactly one restore-split-group carrying the groupId; in active mode the
name controls raise split-session-focus with the clicked session's id,
the unsplit control raises unsplit with the left session's id, and no
click target ever raises restore-split-group. -/
theorem c7_mode_click_dispatch (c : SplitGroupCard) :
    (c.mode = .persisted → c.groupId ≠ "" →
        clickDispatch c .card = [GEv.restoreSplitGroup c.groupId])
    ∧ (c.mode = .active →
        clickDispatch c .leftName = [GEv.splitSessionFocus c.leftSession.id]
        ∧ clickDispatch c .rightName = [GEv.splitSessionFocus c.rightSession.id]
        ∧ clickDispatch c .unsplitButton = [GEv.unsplit c.leftSession.id]
        ∧ ∀ t g, GEv.restoreSplitGroup g ∉ clickDispatch c t) := by
  constructor
  · intro hm hg
    simp [clickDispatch, hm, handleRestoreClick, hg]
  · intro hm
    refine ⟨by simp [clickDispatch, hm, handleClickLeft],
      by simp [clickDispatch, hm, handleClickRight],
      by simp [clickDispatch, hm, handleUnsplit], ?_⟩
    intro t g
    cases t <;>
      simp [clickDispatch, hm, handleClickLeft, handleClickRight, handleUnsplit]

/-- Witness for C7 at concrete persisted and active cards. -/
theorem c7_mode_click_dispatch_witness :
    clickDispatch ⟨⟨"a", "running"⟩, ⟨"b", "running"⟩, .persisted, "g1"⟩ .card
        = [GEv.restoreSplitGroup "g1"]
    ∧ clickDispatch ⟨⟨"a", "running"⟩, ⟨"b", "running"⟩, .active, "g1"⟩
        .unsplitButton = [GEv.unsplit "a"] :=
  ⟨(c7_mode_click_dispatch
      ⟨⟨"a", "running"⟩, ⟨"b", "running"⟩, .persisted, "g1"⟩).1 rfl (by decide),
   ((c7_mode_click_dispatch
      ⟨⟨"a", "running"⟩, ⟨"b", "running"⟩, .active, "g1"⟩).2 rfl).2.2.1⟩

/-- C8: the persisted status dot is bg-status-success when both sessions
are running, bg-status-warning when exactly one is, and bg-status-error
when neither is, for every combination of the two statuses. -/
theorem c8_group_status_color (c : SplitGroupCard) :
    (c.leftSession.status = "running" → c.rightSession.status = "running" →
        getGroupStatusColor c = "bg-status-success")
    ∧ (c.leftSession.status = "running" → c.rightSession.status ≠ "running" →
        getGroupStatusColor c = "bg-status-warning")
    ∧ (c.leftSession.status ≠ "running" → c.rightSession.status = "running" →
        getGroupStatusColor c = "bg-status-warning")
    ∧ (c.leftSession.status ≠ "running" → c.rightSession.status ≠ "running" →
        getGroupStatusColor c = "bg-status-error") := by
  refine ⟨?_, ?_, ?_, ?_⟩ <;> intro h1 h2 <;>
    simp [getGroupStatusColor, h1, h2]

/-- Witness for C8 across the four concrete status combinations. -/
theorem c8_group_status_color_witness :
    getGroupStatusColor ⟨⟨"a", "running"⟩, ⟨"b", "running"⟩, .active, ""⟩
        = "bg-status-success"
    ∧ getGroupStatusColor ⟨⟨"a", "running"⟩, ⟨"b", "exited"⟩, .active, ""⟩
        = "bg-status-warning"
    ∧ getGroupStatusColor ⟨⟨"a", "exited"⟩, ⟨"b", "running"⟩, .active, ""⟩
        = "bg-status-warning"
    ∧ getGroupStatusColor ⟨⟨"a", "exited"⟩, ⟨"b", "exited"⟩, .active, ""⟩
        = "bg-status-error" :=
  ⟨(c8_group_status_color _).1 rfl rfl,
   (c8_group_status_color _).2.1 rfl (by decide),
   (c8_group_status_color _).2.2.1 (by decide) rfl,
   (c8_group_status_color _).2.2.2 (by decide) (by decide)⟩

/-- C10: in persisted mode with an empty groupId no click target raises
any notification, and every restore-split-group ever dispatched carries a
non-empty groupId. -/
theorem c10_empty_group_id_no_restore (c : SplitGroupCard) :
    (c.mode = .persisted → c.groupId = "" → ∀ t, clickDispatch c t = [])
    ∧ (∀ t g, GEv.restoreSplitGroup g ∈ clickDispatch c t → g ≠ "") := by
  constructor
  · intro hm hg t
    cases t <;> simp [clickDispatch, hm, handleRestoreClick, hg]
  · intro t g hmem
    cases hm : c.mode with
    | active =>
      cases t <;>
        simp [clickDispatch, hm, handleClickLeft, handleClickRight,
          handleUnsplit] at hmem
    | persisted =>
      by_cases hg : c.groupId = ""
      · simp [clickDispatch, hm, handleRestoreClick, hg] at hmem
      · have hd : clickDispatch c t = [GEv.restoreSplitGroup c.groupId] := by
          cases t <;> simp [clickDispatch, hm, handleRestoreClick, hg]
        rw [hd] at hmem
        simp at hmem
        rw [hmem]
        exact hg

/-- Witness for C10: the empty-groupId persisted card dispatches nothing,
and a dispatched restore event's groupId is non-empty. -/
theorem c10_empty_group_id_no_restore_witness :
    clickDispatch ⟨⟨"a", "running"⟩, ⟨"b", "exited"⟩, .persisted, ""⟩ .card = []
    ∧ ("g1" : String) ≠ "" :=
  ⟨(c10_empty_group_id_no_restore
      ⟨⟨"a", "running"⟩, ⟨"b", "exited"⟩, .persisted, ""⟩).1 rfl rfl .card,
   (c10_empty_group_id_no_restore
      ⟨⟨"a", "running"⟩, ⟨"b", "exited"⟩, .persisted, "g1"⟩).2 .card "g1"
      (by simp [clickDispatch, handleRestoreClick])⟩

end InyeTunnel
